import Mathlib

/-!
Verification of the istio-beacon charm (src/charm.py, src/models.py).

The Python code is shallowly embedded: Python str slicing becomes a
character-list take, str.join becomes an explicit joining function,
Python dicts of labels become association lists observed through lookup,
and the pydantic models of models.py are embedded in their emitted
(model_dump) form.  Cluster I/O is made explicit: the readiness poll
reads from an abstract stream of poll results, and the label operations
return the patched label set, or none when the code returns without
patching.
-/

namespace IstioBeacon

/-- Embedding of the Python string slice s[:n]: the first n characters. -/
def strTake (s : String) (n : Nat) : String := ⟨s.data.take n⟩

/-- Embedding of the Python expression "-".join(parts). -/
def dashJoin : List String → String
  | [] => ""
  | [x] => x
  | x :: y :: xs => x ++ "-" ++ dashJoin (y :: xs)

/-- A Kubernetes label dictionary, embedded as an association list.  All
code and all theorems observe it only through `getLabel`; key insertion
order (which no claim observes) is not preserved by `setLabel`. -/
abbrev Labels := List (String × String)

/-- Embedding of dict.get(k): the value of the first pair with key k. -/
def getLabel : Labels → String → Option String
  | [], _ => none
  | p :: ls, k => if p.1 == k then some p.2 else getLabel ls k

/-- Embedding of dict update d[k] = v, up to key order: observed through
`getLabel`, it agrees with the Python dict after the assignment. -/
def setLabel (ls : Labels) (k v : String) : Labels :=
  ls.filter (fun p => !(p.1 == k)) ++ [(k, v)]

/-- Embedding of label deletion: charm.py clears a label by updating the
dict value to None, which the namespace patch applies as removal of the
key; we model the resulting label set directly. -/
def removeLabel (ls : Labels) (k : String) : Labels :=
  ls.filter (fun p => !(p.1 == k))

/-- Python truthiness of an optional label value: None and the empty
string are falsy, any other string is truthy. -/
def truthyLabel : Option String → Bool
  | none => false
  | some s => !(s == "")

/-- The istio.io/use-waypoint namespace label key (charm.py line 382). -/
def useWaypointKey : String := "istio.io/use-waypoint"

/-- The istio.io/dataplane-mode namespace label key (charm.py line 383). -/
def dataplaneModeKey : String := "istio.io/dataplane-mode"

/-- The managed-by namespace label key (charm.py line 385). -/
def managedByKey : String := "charms.canonical.com/istio.io.waypoint.managed-by"

/-- Embedding of IstioBeaconCharm._add_labels (charm.py lines 366-399),
acting on the fetched namespace label set (a missing labels dict is
normalised to the empty set by the code before the guard runs).  The
result is the patched label set, or none when the code logs the
ownership conflict and returns without patching. -/
def add_labels (appIdentity waypointName : String) (ls : Labels) : Option Labels :=
  if (truthyLabel (getLabel ls useWaypointKey) || truthyLabel (getLabel ls dataplaneModeKey))
      && !(getLabel ls managedByKey == some appIdentity) then
    none
  else
    some (setLabel (setLabel (setLabel ls useWaypointKey waypointName)
      dataplaneModeKey "ambient") managedByKey appIdentity)

/-- Embedding of IstioBeaconCharm._remove_labels (charm.py lines 401-424),
acting on the fetched namespace label set.  The code body runs only when
the labels dict is truthy (non-empty); inside it, a managed-by value
different from this identity aborts without patching.  The result is the
patched label set, or none when nothing is written back. -/
def remove_labels (appIdentity : String) (ls : Labels) : Option Labels :=
  if ls.isEmpty then none
  else if !(getLabel ls managedByKey == some appIdentity) then none
  else
    some (removeLabel (removeLabel (removeLabel ls useWaypointKey) dataplaneModeKey) managedByKey)

/-- Modelled from the spec: one endpoint descriptor of a PolicyIntent
(spec section 3), the endpoint entry of the MeshPolicy class of the
service-mesh charm library, which is not under src/.  Each of the four
lists is optional (an absent list is distinct from an empty one). -/
structure Endpoint where
  ports : Option (List Nat)
  hosts : Option (List String)
  methods : Option (List String)
  paths : Option (List String)
deriving DecidableEq

/-- Modelled from the spec: a PolicyIntent (spec section 3), the
MeshPolicy class of the service-mesh charm library, which is not under
src/: source application, source namespace, target application, optional
target service, and an ordered list of endpoint descriptors. -/
structure MeshPolicy where
  source_app_name : String
  source_namespace : String
  target_app_name : String
  target_service : Option String
  endpoints : List Endpoint
deriving DecidableEq

/-- Embedding of _get_peer_identity_for_service_account (charm.py lines
494-501). -/
def get_peer_identity_for_service_account (service_account ns : String) : String :=
  "cluster.local/ns/" ++ ns ++ "/sa/" ++ service_account

/-- Embedding of _get_peer_identity_for_juju_application (charm.py lines
481-491). -/
def get_peer_identity_for_juju_application (app_name ns : String) : String :=
  get_peer_identity_for_service_account app_name ns

/-- Embedding of IstioBeaconCharm._generate_authorization_policy_name
(charm.py lines 436-473).  _hash_pydantic_model (a sha256 of the pydantic
string dump, charm.py lines 504-516) is abstracted as the function
parameter hashFn; both uses below apply it to the same untruncated
mesh_policy, exactly as the source does. -/
def generate_authorization_policy_name (hashFn : MeshPolicy → String)
    (appName modelName : String) (mesh_policy : MeshPolicy) : String :=
  let name := dashJoin [appName, modelName, "policy",
    mesh_policy.source_app_name, mesh_policy.source_namespace,
    mesh_policy.target_app_name, strTake (hashFn mesh_policy) 8]
  if name.length > 253 then
    dashJoin [appName, modelName, "policy",
      strTake mesh_policy.source_app_name 30, strTake mesh_policy.source_namespace 30,
      strTake mesh_policy.target_app_name 30, strTake (hashFn mesh_policy) 8]
  else
    name

/-- The Operation of models.py (lines 86-94) in its emitted form: the
charm constructs it with exactly ports, hosts, methods and paths, and
dumps it with exclude_unset and exclude_none, so a field holds none here
exactly when it is omitted from the emitted object.  The never-assigned
negated fields (notHosts, notMethods, notPaths) are always omitted by
exclude_unset and are not modelled. -/
structure Operation where
  ports : Option (List String)
  hosts : Option (List String)
  methods : Option (List String)
  paths : Option (List String)
deriving DecidableEq

/-- The To of models.py (lines 97-99) in its emitted form. -/
structure To where
  operation : Option Operation
deriving DecidableEq

/-- The Source of models.py (lines 74-78) in its emitted form; the
never-assigned notPrincipals field is not modelled. -/
structure Source where
  principals : Option (List String)
deriving DecidableEq

/-- The From of models.py (lines 81-83) in its emitted form. -/
structure From where
  source : Source
deriving DecidableEq

/-- The Rule of models.py (lines 109-116) in its emitted form (from_ is
emitted under its alias from, and to_ models the to field, renamed
because to is reserved here); the never-assigned when field is not
modelled. -/
structure Rule where
  from_ : Option (List From)
  to_ : Option (List To)
deriving DecidableEq

/-- The PolicyTargetReference of models.py (lines 61-66) in its emitted
form; the never-assigned namespace field is not modelled. -/
structure PolicyTargetReference where
  group : String
  kind : String
  name : String
deriving DecidableEq

/-- One emitted AuthorizationPolicy object as built by the charm: its
metadata name and namespace and the dumped AuthorizationPolicySpec of
models.py (lines 119-123).  The action field has its default value and
is never explicitly set, so exclude_unset omits it; it is not modelled. -/
structure AuthorizationPolicyResource where
  name : String
  ns : String
  targetRefs : List PolicyTargetReference
  rules : List Rule
deriving DecidableEq

/-- The Operation built for one endpoint (charm.py lines 277-285), after
the dump: ports is always assigned (the stringified ports when the ports
list is truthy, the empty list when it is None or empty), so it is never
omitted; hosts, methods and paths are passed through and omitted exactly
when they are None. -/
def buildOperation (endpoint : Endpoint) : Operation :=
  let portStrings : List String :=
    match endpoint.ports with
    | some ps => if ps.isEmpty then [] else ps.map (fun p => toString p)
    | none => []
  { ports := some portStrings
    hosts := endpoint.hosts
    methods := endpoint.methods
    paths := endpoint.paths }

/-- Embedding of the Python expression policy.target_service or
policy.target_app_name (charm.py line 241): Python or takes the second
operand when the first is None or the empty string. -/
def targetServiceOrAppName (policy : MeshPolicy) : String :=
  match policy.target_service with
  | some s => if s == "" then policy.target_app_name else s
  | none => policy.target_app_name

/-- The loop body of IstioBeaconCharm._build_authorization_policies
(charm.py lines 240-295): the emitted AuthorizationPolicy for one
MeshPolicy, placed in the beacon model namespace, with one rule holding
one source principal (resolved in the beacon model namespace, charm.py
line 269) and one To entry per endpoint. -/
def build_one_authorization_policy (hashFn : MeshPolicy → String)
    (appName modelName : String) (policy : MeshPolicy) : AuthorizationPolicyResource :=
  let principal := get_peer_identity_for_juju_application policy.source_app_name modelName
  let rule : Rule :=
    { from_ := some [{ source := { principals := some [principal] } }]
      to_ := some (policy.endpoints.map (fun endpoint =>
        { operation := some (buildOperation endpoint) })) }
  { name := generate_authorization_policy_name hashFn appName modelName policy
    ns := modelName
    targetRefs := [{ kind := "Service", group := "", name := targetServiceOrAppName policy }]
    rules := [rule] }

/-- Embedding of IstioBeaconCharm._build_authorization_policies
(charm.py lines 237-296): one AuthorizationPolicy per MeshPolicy, in
order. -/
def build_authorization_policies (hashFn : MeshPolicy → String)
    (appName modelName : String) (mesh_info : List MeshPolicy) :
    List AuthorizationPolicyResource :=
  mesh_info.map (build_one_authorization_policy hashFn appName modelName)

/-- Embedding of IstioBeaconCharm._sync_authorization_policies (charm.py
lines 323-337): the desired list handed to krm.reconcile, which is
always invoked, with the built policies when the
manage-authorization-policies config is set and with the empty list
otherwise. -/
def sync_authorization_policies (managePolicies : Bool)
    (hashFn : MeshPolicy → String) (appName modelName : String)
    (mesh_info : List MeshPolicy) : List AuthorizationPolicyResource :=
  if managePolicies then build_authorization_policies hashFn appName modelName mesh_info
  else []

/-- Modelled from the spec: the deletion pass of
KubernetesResourceManager.reconcile (the lightkube_extensions library,
not under src/), spec section 4.1: every currently owned object whose
identity is not in the desired list is deleted.  Identities are given by
name here. -/
def reconcile_deleted (desiredNames existingNames : List String) : List String :=
  existingNames.filter (fun n => !(desiredNames.contains n))

/-- The observed status of the waypoint Deployment: replica counts may be
absent individually. -/
structure DeploymentStatus where
  readyReplicas : Option Nat
  replicas : Option Nat
deriving DecidableEq

/-- One poll of the waypoint Deployment: an ApiError (such as not found),
or the fetched Deployment with an optional status object. -/
inductive PollResult where
  | apiError
  | found (status : Option DeploymentStatus)
deriving DecidableEq

/-- The per-poll readiness judgement of the loop body (charm.py lines
196-209): an ApiError and an absent (falsy) status are not ready; a
present status is ready exactly when readyReplicas == replicas, where
Python compares two None values as equal. -/
def deploymentReady : PollResult → Bool
  | .apiError => false
  | .found none => false
  | .found (some st) => st.readyReplicas == st.replicas

/-- The retry loop of _is_waypoint_deployment_ready: consumes the polls
in order starting at index i, at most fuel of them, returning true at
the first ready poll and false when the attempts are exhausted. -/
def readyLoop (polls : Nat → PollResult) : Nat → Nat → Bool
  | 0, _ => false
  | fuel + 1, i => if deploymentReady (polls i) then true else readyLoop polls fuel (i + 1)

/-- Embedding of IstioBeaconCharm._is_waypoint_deployment_ready
(charm.py lines 189-213): the attempt count is the integer division of
the ready-timeout config by the fixed 10-second check interval, and the
function returns false when no attempt reports ready. -/
def is_waypoint_deployment_ready (readyTimeout : Nat) (polls : Nat → PollResult) : Bool :=
  let check_interval := 10
  let attempts := readyTimeout / check_interval
  readyLoop polls attempts 0

/-- The externally visible steps of one _sync_all_resources run, in
execution order. -/
inductive SyncEvent where
  | reconcileWaypoint
  | labelSync (modelOnMesh : Bool)
  | readinessGate (ready : Bool)
  | pebbleSetup
  | reconcilePolicies (desired : List AuthorizationPolicyResource)
deriving DecidableEq

/-- The outcome of one _sync_all_resources run. -/
inductive SyncOutcome where
  | blockedNotLeader
  | fatalNotReady
  | success
deriving DecidableEq

/-- One _sync_all_resources run: its ordered event trace and outcome. -/
structure SyncRun where
  events : List SyncEvent
  outcome : SyncOutcome
deriving DecidableEq

/-- Embedding of IstioBeaconCharm._sync_all_resources (charm.py lines
220-235) together with _sync_waypoint_resources (lines 339-349): a
non-leader run is blocked before doing anything; otherwise the waypoint
is reconciled and the namespace label sync performed (claim when
model-on-mesh is set, release otherwise), then the readiness gate runs,
raising the fatal RuntimeError when it reports false, and only then the
pebble service is set up and the authorization policies reconciled. -/
def sync_all_resources (isLeader : Bool) (readyTimeout : Nat)
    (polls : Nat → PollResult) (modelOnMesh managePolicies : Bool)
    (hashFn : MeshPolicy → String) (appName modelName : String)
    (mesh_info : List MeshPolicy) : SyncRun :=
  if !isLeader then { events := [], outcome := .blockedNotLeader }
  else
    let waypointEvents : List SyncEvent := [.reconcileWaypoint, .labelSync modelOnMesh]
    let ready := is_waypoint_deployment_ready readyTimeout polls
    if !ready then
      { events := waypointEvents ++ [.readinessGate false], outcome := .fatalNotReady }
    else
      { events := waypointEvents ++ [.readinessGate true, .pebbleSetup,
          .reconcilePolicies (sync_authorization_policies managePolicies hashFn appName modelName mesh_info)]
        outcome := .success }

/-! ### Helper lemmas about the label map, the string helpers and the
readiness loop -/

theorem getLabel_filter_self (ls : Labels) (k : String) :
    getLabel (ls.filter (fun p => !(p.1 == k))) k = none := by
  induction ls with
  | nil => rfl
  | cons a ls ih =>
    by_cases h : a.1 = k
    · simpa [List.filter_cons, h] using ih
    · simpa [List.filter_cons, getLabel, h] using ih

theorem getLabel_filter_ne (ls : Labels) (k q : String) (h : q ≠ k) :
    getLabel (ls.filter (fun p => !(p.1 == k))) q = getLabel ls q := by
  induction ls with
  | nil => rfl
  | cons a ls ih =>
    have hkq : ¬ (k = q) := fun hh => h hh.symm
    by_cases hk : a.1 = k
    · have hq : ¬ a.1 = q := by rw [hk]; exact fun hh => h hh.symm
      simp [List.filter_cons, hk, getLabel, hq, ih, hkq]
    · by_cases hq : a.1 = q
      · simp [List.filter_cons, hk, getLabel, hq, h]
      · simp [List.filter_cons, hk, getLabel, hq, ih]

theorem getLabel_append (l1 l2 : Labels) (q : String) :
    getLabel (l1 ++ l2) q =
      match getLabel l1 q with
      | some v => some v
      | none => getLabel l2 q := by
  induction l1 with
  | nil => rfl
  | cons a l1 ih => by_cases h : a.1 = q <;> simp [getLabel, h, ih]

theorem getLabel_setLabel_self (ls : Labels) (k v : String) :
    getLabel (setLabel ls k v) k = some v := by
  rw [setLabel, getLabel_append, getLabel_filter_self]
  simp [getLabel]

theorem getLabel_setLabel_ne (ls : Labels) (k v q : String) (h : q ≠ k) :
    getLabel (setLabel ls k v) q = getLabel ls q := by
  rw [setLabel, getLabel_append, getLabel_filter_ne ls k q h]
  cases hgl : getLabel ls q with
  | some w => rfl
  | none =>
    have hkq : ¬ (k = q) := fun hh => h hh.symm
    simp [getLabel, hkq]

theorem getLabel_removeLabel_self (ls : Labels) (k : String) :
    getLabel (removeLabel ls k) k = none :=
  getLabel_filter_self ls k

theorem getLabel_removeLabel_ne (ls : Labels) (k q : String) (h : q ≠ k) :
    getLabel (removeLabel ls k) q = getLabel ls q :=
  getLabel_filter_ne ls k q h

theorem strTake_length_le (s : String) (n : Nat) : (strTake s n).length ≤ n :=
  List.length_take_le n s.data

theorem dashJoin_seven_length (a b c d e f g : String) :
    (dashJoin [a, b, c, d, e, f, g]).length
      = a.length + b.length + c.length + d.length + e.length + f.length + g.length + 6 := by
  have hdash : ("-" : String).length = 1 := rfl
  simp [dashJoin, String.length_append, hdash]
  omega

theorem readyLoop_eq_false (polls : Nat → PollResult) (fuel i : Nat)
    (h : ∀ j, j < fuel → deploymentReady (polls (i + j)) = false) :
    readyLoop polls fuel i = false := by
  induction fuel generalizing i with
  | zero => rfl
  | succ n ih =>
    have h0 : deploymentReady (polls i) = false := by simpa using h 0 (Nat.succ_pos n)
    rw [readyLoop, h0, if_neg (by simp)]
    exact ih (i + 1) (fun j hj => by
      have := h (j + 1) (by omega)
      simpa [Nat.add_assoc, Nat.add_comm 1 j] using this)

theorem readyLoop_congr (polls polls' : Nat → PollResult) (fuel i : Nat)
    (h : ∀ j, j < fuel → polls (i + j) = polls' (i + j)) :
    readyLoop polls fuel i = readyLoop polls' fuel i := by
  induction fuel generalizing i with
  | zero => rfl
  | succ n ih =>
    have h0 : polls i = polls' i := by simpa using h 0 (Nat.succ_pos n)
    rw [readyLoop, readyLoop, h0]
    by_cases hr : deploymentReady (polls' i) = true
    · rw [if_pos hr, if_pos hr]
    · rw [if_neg hr, if_neg hr]
      exact ih (i + 1) (fun j hj => by
        have := h (j + 1) (by omega)
        simpa [Nat.add_assoc, Nat.add_comm 1 j] using this)

theorem readyLoop_of_ready (polls : Nat → PollResult) (fuel i j : Nat) (hj : j < fuel)
    (h : deploymentReady (polls (i + j)) = true) : readyLoop polls fuel i = true := by
  induction fuel generalizing i j with
  | zero => omega
  | succ n ih =>
    rw [readyLoop]
    by_cases hr : deploymentReady (polls i) = true
    · rw [if_pos hr]
    · rw [if_neg hr]
      cases j with
      | zero => exact absurd (by simpa using h) hr
      | succ m =>
        exact ih (i + 1) m (by omega) (by
          simpa [Nat.add_assoc, Nat.add_comm 1 m] using h)

/-! ### Claim theorems -/

/-- C1, counterexample: a namespace whose labels hold only a managed-by
value belonging to a different identity.  The claim requires the claim
operation to fail with no write, because a managed key (managed-by) is
present and set to a foreign identity; the code writes back anyway,
overwriting the foreign claim, because its guard only tests the
use-waypoint and dataplane-mode keys. -/
theorem add_labels_foreign_managed_by_counterexample :
    add_labels "beacon-mymodel" "beacon-mymodel-waypoint"
      [("charms.canonical.com/istio.io.waypoint.managed-by", "other-beacon-othermodel")]
    = some [("istio.io/use-waypoint", "beacon-mymodel-waypoint"),
            ("istio.io/dataplane-mode", "ambient"),
            ("charms.canonical.com/istio.io.waypoint.managed-by", "beacon-mymodel")] := by
  decide

/-- C1, amended: the claim operation fails with no write exactly when
use-waypoint or dataplane-mode is present with a non-empty value and
managed-by differs from this identity (an absent managed-by counts as
different); otherwise it sets the three managed keys to this identity
and writes them back in one patch, leaving every other label unchanged.
A lone foreign managed-by label, without the other two keys, does not
block the claim. -/
theorem add_labels_guard_characterization (appIdentity waypointName : String) (ls : Labels) :
    ((truthyLabel (getLabel ls useWaypointKey) || truthyLabel (getLabel ls dataplaneModeKey)) = true →
        getLabel ls managedByKey ≠ some appIdentity →
        add_labels appIdentity waypointName ls = none)
  ∧ ((truthyLabel (getLabel ls useWaypointKey) || truthyLabel (getLabel ls dataplaneModeKey)) = false
        ∨ getLabel ls managedByKey = some appIdentity →
      ∃ ls', add_labels appIdentity waypointName ls = some ls'
        ∧ getLabel ls' useWaypointKey = some waypointName
        ∧ getLabel ls' dataplaneModeKey = some "ambient"
        ∧ getLabel ls' managedByKey = some appIdentity
        ∧ ∀ k, k ≠ useWaypointKey → k ≠ dataplaneModeKey → k ≠ managedByKey →
            getLabel ls' k = getLabel ls k) := by
  have hud : useWaypointKey ≠ dataplaneModeKey := by decide
  have hum : useWaypointKey ≠ managedByKey := by decide
  have hdm : dataplaneModeKey ≠ managedByKey := by decide
  constructor
  · intro hguard hmb
    have hbe : (getLabel ls managedByKey == some appIdentity) = false := by
      cases hbe : getLabel ls managedByKey == some appIdentity
      · rfl
      · exact absurd (eq_of_beq hbe) hmb
    unfold add_labels
    rw [hguard, hbe]
    simp
  · intro hcase
    have hcond : ((truthyLabel (getLabel ls useWaypointKey)
          || truthyLabel (getLabel ls dataplaneModeKey))
        && !(getLabel ls managedByKey == some appIdentity)) = false := by
      rcases hcase with hA | hB
      · rw [hA]; rfl
      · have : (getLabel ls managedByKey == some appIdentity) = true := beq_iff_eq.mpr hB
        rw [this]; simp
    refine ⟨setLabel (setLabel (setLabel ls useWaypointKey waypointName)
        dataplaneModeKey "ambient") managedByKey appIdentity, ?_, ?_, ?_, ?_, ?_⟩
    · unfold add_labels
      rw [hcond]
      simp
    · rw [getLabel_setLabel_ne _ _ _ _ hum, getLabel_setLabel_ne _ _ _ _ hud,
        getLabel_setLabel_self]
    · rw [getLabel_setLabel_ne _ _ _ _ hdm, getLabel_setLabel_self]
    · rw [getLabel_setLabel_self]
    · intro k hku hkd hkm
      rw [getLabel_setLabel_ne _ _ _ _ hkm, getLabel_setLabel_ne _ _ _ _ hkd,
        getLabel_setLabel_ne _ _ _ _ hku]

/-- C1, witness: on a namespace carrying only a use-waypoint label set by
someone else, the claim operation writes nothing. -/
theorem add_labels_guard_characterization_witness :
    add_labels "beacon-mymodel" "beacon-mymodel-waypoint" [("istio.io/use-waypoint", "foreign-wp")]
      = none :=
  (add_labels_guard_characterization "beacon-mymodel" "beacon-mymodel-waypoint"
    [("istio.io/use-waypoint", "foreign-wp")]).1 (by decide) (by decide)

/-- C8: the release operation writes nothing when managed-by is absent or
differs from this identity; when managed-by equals this identity it
clears exactly the three managed keys and leaves every other label
unchanged. -/
theorem remove_labels_ownership_guard (appIdentity : String) (ls : Labels) :
    (getLabel ls managedByKey ≠ some appIdentity → remove_labels appIdentity ls = none)
  ∧ (getLabel ls managedByKey = some appIdentity →
      ∃ ls', remove_labels appIdentity ls = some ls'
        ∧ getLabel ls' useWaypointKey = none
        ∧ getLabel ls' dataplaneModeKey = none
        ∧ getLabel ls' managedByKey = none
        ∧ ∀ k, k ≠ useWaypointKey → k ≠ dataplaneModeKey → k ≠ managedByKey →
            getLabel ls' k = getLabel ls k) := by
  have hud : useWaypointKey ≠ dataplaneModeKey := by decide
  have hum : useWaypointKey ≠ managedByKey := by decide
  have hdm : dataplaneModeKey ≠ managedByKey := by decide
  constructor
  · intro hmb
    unfold remove_labels
    by_cases he : ls.isEmpty = true
    · rw [if_pos he]
    · rw [if_neg he]
      have hbe : (getLabel ls managedByKey == some appIdentity) = false := by
        cases hbe : getLabel ls managedByKey == some appIdentity
        · rfl
        · exact absurd (eq_of_beq hbe) hmb
      rw [hbe]
      simp
  · intro hmb
    have hne : ls ≠ [] := by
      intro h
      rw [h] at hmb
      exact Option.noConfusion hmb
    have he : ls.isEmpty = false := by
      cases ls with
      | nil => exact absurd rfl hne
      | cons a l => rfl
    have hbe : (getLabel ls managedByKey == some appIdentity) = true := beq_iff_eq.mpr hmb
    refine ⟨removeLabel (removeLabel (removeLabel ls useWaypointKey) dataplaneModeKey) managedByKey,
      ?_, ?_, ?_, ?_, ?_⟩
    · unfold remove_labels
      rw [he, hbe]
      simp
    · rw [getLabel_removeLabel_ne _ _ _ hum, getLabel_removeLabel_ne _ _ _ hud,
        getLabel_removeLabel_self]
    · rw [getLabel_removeLabel_ne _ _ _ hdm, getLabel_removeLabel_self]
    · rw [getLabel_removeLabel_self]
    · intro k hku hkd hkm
      rw [getLabel_removeLabel_ne _ _ _ hkm, getLabel_removeLabel_ne _ _ _ hkd,
        getLabel_removeLabel_ne _ _ _ hku]

/-- C8, witness: a namespace whose managed-by label belongs to a
different identity is released without any write. -/
theorem remove_labels_ownership_guard_witness :
    remove_labels "beacon-mymodel"
      [("charms.canonical.com/istio.io.waypoint.managed-by", "other-beacon-othermodel")] = none :=
  (remove_labels_ownership_guard "beacon-mymodel"
    [("charms.canonical.com/istio.io.waypoint.managed-by", "other-beacon-othermodel")]).1
    (by decide)

/-- C3, counterexample: a leader run whose every poll hits an ApiError.
The readiness gate never passes, yet the trace shows the namespace label
sync already performed, before the gate, refuting the claim that labels
are never mutated in a run whose readiness gate has not passed. -/
theorem sync_label_mutation_before_readiness_counterexample :
    sync_all_resources true 30 (fun _ => PollResult.apiError) true true (fun _ => "h")
        "beacon" "mymodel" []
      = { events := [SyncEvent.reconcileWaypoint, SyncEvent.labelSync true,
            SyncEvent.readinessGate false],
          outcome := SyncOutcome.fatalNotReady } := by
  decide

/-- C3, amended: in every leader sync run the namespace label
claim/release is performed as part of waypoint reconciliation, strictly
before the readiness wait; the readiness gate only guards the pebble
setup and the policy reconcile, and a run whose gate fails aborts with
the fatal outcome after the labels were already synced. -/
theorem sync_trace_label_before_gate (readyTimeout : Nat) (polls : Nat → PollResult)
    (modelOnMesh managePolicies : Bool) (hashFn : MeshPolicy → String)
    (appName modelName : String) (mesh_info : List MeshPolicy) :
    (is_waypoint_deployment_ready readyTimeout polls = false →
      sync_all_resources true readyTimeout polls modelOnMesh managePolicies hashFn
          appName modelName mesh_info
        = { events := [SyncEvent.reconcileWaypoint, SyncEvent.labelSync modelOnMesh,
              SyncEvent.readinessGate false],
            outcome := SyncOutcome.fatalNotReady })
  ∧ (is_waypoint_deployment_ready readyTimeout polls = true →
      sync_all_resources true readyTimeout polls modelOnMesh managePolicies hashFn
          appName modelName mesh_info
        = { events := [SyncEvent.reconcileWaypoint, SyncEvent.labelSync modelOnMesh,
              SyncEvent.readinessGate true, SyncEvent.pebbleSetup,
              SyncEvent.reconcilePolicies (sync_authorization_policies managePolicies hashFn
                appName modelName mesh_info)],
            outcome := SyncOutcome.success }) := by
  constructor
  · intro h
    simp [sync_all_resources, h]
  · intro h
    simp [sync_all_resources, h]

/-- C3, witness: a release-path leader run with a failing gate produces
exactly the trace of the amended claim. -/
theorem sync_trace_label_before_gate_witness :
    sync_all_resources true 30 (fun _ => PollResult.found none) false true (fun _ => "h")
        "beacon" "mymodel" []
      = { events := [SyncEvent.reconcileWaypoint, SyncEvent.labelSync false,
            SyncEvent.readinessGate false],
          outcome := SyncOutcome.fatalNotReady } :=
  (sync_trace_label_before_gate 30 (fun _ => PollResult.found none) false true (fun _ => "h")
    "beacon" "mymodel" []).1 (by decide)

/-- C5: when the manage-authorization-policies toggle is false the
desired list handed to the policy-scope reconcile is empty and the
reconcile is still invoked (it appears in every successful sync trace),
so the deletion pass removes every previously owned policy; when the
toggle is true the desired list is exactly the one built from the
current intents. -/
theorem sync_policies_always_reconciled (hashFn : MeshPolicy → String)
    (appName modelName : String) (mesh_info : List MeshPolicy)
    (readyTimeout : Nat) (polls : Nat → PollResult) (modelOnMesh : Bool) :
    sync_authorization_policies false hashFn appName modelName mesh_info = []
  ∧ sync_authorization_policies true hashFn appName modelName mesh_info
      = build_authorization_policies hashFn appName modelName mesh_info
  ∧ (∀ existingNames : List String, reconcile_deleted [] existingNames = existingNames)
  ∧ (is_waypoint_deployment_ready readyTimeout polls = true →
      ∀ managePolicies : Bool,
        SyncEvent.reconcilePolicies (sync_authorization_policies managePolicies hashFn
            appName modelName mesh_info)
          ∈ (sync_all_resources true readyTimeout polls modelOnMesh managePolicies hashFn
              appName modelName mesh_info).events) := by
  refine ⟨rfl, rfl, ?_, ?_⟩
  · intro existing
    simp [reconcile_deleted]
  · intro h mp
    simp [sync_all_resources, h]

/-- C5, witness: a ready leader run with the toggle off still reconciles
the policy scope, with the empty desired list. -/
theorem sync_policies_always_reconciled_witness :
    SyncEvent.reconcilePolicies [] ∈ (sync_all_resources true 10
      (fun _ => PollResult.found (some { readyReplicas := some 1, replicas := some 1 }))
      true false (fun _ => "h") "beacon" "mymodel" []).events :=
  (sync_policies_always_reconciled (fun _ => "h") "beacon" "mymodel" [] 10
    (fun _ => PollResult.found (some { readyReplicas := some 1, replicas := some 1 })) true).2.2.2
    (by decide) false

/-- C7: the readiness wait consults at most readyTimeout / 10 polls (its
result depends on no others), treats an ApiError and an absent status as
not yet ready, judges a present status ready exactly when the reported
ready-replica count equals the reported desired-replica count, and
returns false when no consulted poll reports ready. -/
theorem readiness_poll_contract (readyTimeout : Nat) (polls polls' : Nat → PollResult) :
    deploymentReady PollResult.apiError = false
  ∧ deploymentReady (PollResult.found none) = false
  ∧ (∀ st : DeploymentStatus,
      deploymentReady (PollResult.found (some st)) = (st.readyReplicas == st.replicas))
  ∧ ((∀ i, i < readyTimeout / 10 → polls i = polls' i) →
      is_waypoint_deployment_ready readyTimeout polls
        = is_waypoint_deployment_ready readyTimeout polls')
  ∧ ((∀ i, i < readyTimeout / 10 → deploymentReady (polls i) = false) →
      is_waypoint_deployment_ready readyTimeout polls = false) := by
  refine ⟨rfl, rfl, fun st => rfl, ?_, ?_⟩
  · intro h
    exact readyLoop_congr polls polls' (readyTimeout / 10) 0 (fun j hj => by simpa using h j hj)
  · intro h
    exact readyLoop_eq_false polls (readyTimeout / 10) 0 (fun j hj => by simpa using h j hj)

/-- C7, witness: with the default 30-second timeout and every poll
failing with an ApiError, the wait returns false. -/
theorem readiness_poll_contract_witness :
    is_waypoint_deployment_ready 30 (fun _ => PollResult.apiError) = false :=
  (readiness_poll_contract 30 (fun _ => PollResult.apiError)
    (fun _ => PollResult.apiError)).2.2.2.2 (fun _ _ => rfl)

/-- C9: a configured ready-timeout below 10 yields zero attempts, a
readiness result that is false independently of the cluster polls, and a
fatal outcome for every leader sync run. -/
theorem short_timeout_readiness_fatal (readyTimeout : Nat) (polls polls' : Nat → PollResult)
    (modelOnMesh managePolicies : Bool) (hashFn : MeshPolicy → String)
    (appName modelName : String) (mesh_info : List MeshPolicy)
    (h : readyTimeout < 10) :
    readyTimeout / 10 = 0
  ∧ is_waypoint_deployment_ready readyTimeout polls = false
  ∧ is_waypoint_deployment_ready readyTimeout polls
      = is_waypoint_deployment_ready readyTimeout polls'
  ∧ (sync_all_resources true readyTimeout polls modelOnMesh managePolicies hashFn
      appName modelName mesh_info).outcome = SyncOutcome.fatalNotReady := by
  have h0 : readyTimeout / 10 = 0 := Nat.div_eq_of_lt h
  have hfalse : is_waypoint_deployment_ready readyTimeout polls = false := by
    show readyLoop polls (readyTimeout / 10) 0 = false
    rw [h0]
    rfl
  have hfalse' : is_waypoint_deployment_ready readyTimeout polls' = false := by
    show readyLoop polls' (readyTimeout / 10) 0 = false
    rw [h0]
    rfl
  refine ⟨h0, hfalse, hfalse.trans hfalse'.symm, ?_⟩
  simp [sync_all_resources, hfalse]

/-- C9, witness: with a 5-second timeout every leader run is fatal even
when the deployment would report ready at once. -/
theorem short_timeout_readiness_fatal_witness :
    (sync_all_resources true 5
      (fun _ => PollResult.found (some { readyReplicas := some 1, replicas := some 1 }))
      true true (fun _ => "h") "beacon" "mymodel" []).outcome = SyncOutcome.fatalNotReady :=
  (short_timeout_readiness_fatal 5
    (fun _ => PollResult.found (some { readyReplicas := some 1, replicas := some 1 }))
    (fun _ => PollResult.apiError) true true (fun _ => "h") "beacon" "mymodel" []
    (by decide)).2.2.2

/-- C10: a poll that finds the Deployment with a status object whose
ready-replica and desired-replica counts are both absent is judged ready
(None compares equal to None), and a wait that reaches such a poll
returns true. -/
theorem absent_replica_counts_ready (readyTimeout : Nat) (polls : Nat → PollResult) (i : Nat)
    (hi : i < readyTimeout / 10)
    (hpoll : polls i = PollResult.found (some { readyReplicas := none, replicas := none })) :
    deploymentReady (polls i) = true
  ∧ is_waypoint_deployment_ready readyTimeout polls = true := by
  have hready : deploymentReady (polls i) = true := by
    rw [hpoll]
    rfl
  exact ⟨hready, readyLoop_of_ready polls (readyTimeout / 10) 0 i hi (by simpa using hready)⟩

/-- C10, witness: a first poll with a bare status object makes the wait
succeed immediately. -/
theorem absent_replica_counts_ready_witness :
    is_waypoint_deployment_ready 30
      (fun _ => PollResult.found (some { readyReplicas := none, replicas := none })) = true :=
  (absent_replica_counts_ready 30
    (fun _ => PollResult.found (some { readyReplicas := none, replicas := none })) 0
    (by decide) rfl).2

/-- C2, counterexample: an intent with one endpoint whose four lists are
all absent.  The claim requires every absent list to be omitted from the
emitted object, but the emitted Operation carries ports as a present
empty list (the code maps a falsy ports value to [] before constructing
the Operation), while hosts, methods and paths are indeed omitted. -/
theorem build_policies_absent_ports_counterexample :
    ((build_authorization_policies (fun _ => "0123456789abcdef") "beacon" "mymodel"
        [{ source_app_name := "app-a", source_namespace := "ns1", target_app_name := "app-b",
           target_service := none,
           endpoints := [{ ports := none, hosts := none, methods := none, paths := none }] }]).map
      (fun r => r.rules.map (fun rule => rule.to_)))
    = [[some [{ operation := some { ports := some [], hosts := none, methods := none,
                                    paths := none } }]]]
  ∧ some ([] : List String) ≠ (none : Option (List String)) := by
  decide

/-- C2, amended: the built resource holds one To/Operation entry per
endpoint descriptor, in order; ports are mapped to their string forms
when a non-empty ports list is given, while an absent or empty ports
list is emitted as a present empty list (never omitted); hosts, methods
and paths are passed through verbatim, so each of them is omitted
exactly when it is absent in the endpoint. -/
theorem build_policies_endpoint_mapping (hashFn : MeshPolicy → String)
    (appName modelName : String) (mesh_info : List MeshPolicy) (policy : MeshPolicy)
    (hpol : policy ∈ mesh_info) :
    ∃ r ∈ build_authorization_policies hashFn appName modelName mesh_info,
      ∃ rule : Rule, r.rules = [rule]
        ∧ ∃ tos : List To, rule.to_ = some tos
          ∧ tos.length = policy.endpoints.length
          ∧ ∀ (j : Nat) (e : Endpoint), policy.endpoints[j]? = some e →
              ∃ op : Operation, tos[j]? = some { operation := some op }
                ∧ (e.ports = none → op.ports = some [])
                ∧ (e.ports = some [] → op.ports = some [])
                ∧ (∀ ps : List Nat, e.ports = some ps → ps ≠ [] →
                    op.ports = some (ps.map (fun p => toString p)))
                ∧ op.hosts = e.hosts
                ∧ op.methods = e.methods
                ∧ op.paths = e.paths := by
  refine ⟨build_one_authorization_policy hashFn appName modelName policy,
    List.mem_map_of_mem _ hpol, _, rfl, _, rfl, by simp, ?_⟩
  intro j e hj
  refine ⟨buildOperation e, ?_, ?_, ?_, ?_, rfl, rfl, rfl⟩
  · simp [List.getElem?_map, hj]
  · intro hp
    simp [buildOperation, hp]
  · intro hp
    simp [buildOperation, hp]
  · intro ps hp hne
    cases ps with
    | nil => exact absurd rfl hne
    | cons a l => simp [buildOperation, hp]

/-- C2, witness: a one-endpoint intent with a concrete ports list and a
present empty hosts list, instantiating the amended mapping. -/
theorem build_policies_endpoint_mapping_witness :
    ∃ r ∈ build_authorization_policies (fun _ => "0123456789abcdef") "beacon" "mymodel"
        [{ source_app_name := "app-a", source_namespace := "ns1", target_app_name := "app-b",
           target_service := none,
           endpoints := [{ ports := some [80], hosts := some [], methods := none,
                           paths := some ["/x"] }] }],
      ∃ rule : Rule, r.rules = [rule] := by
  obtain ⟨r, hr, rule, hrule, -⟩ :=
    build_policies_endpoint_mapping (fun _ => "0123456789abcdef") "beacon" "mymodel"
      [{ source_app_name := "app-a", source_namespace := "ns1", target_app_name := "app-b",
         target_service := none,
         endpoints := [{ ports := some [80], hosts := some [], methods := none,
                         paths := some ["/x"] }] }]
      { source_app_name := "app-a", source_namespace := "ns1", target_app_name := "app-b",
        target_service := none,
        endpoints := [{ ports := some [80], hosts := some [], methods := none,
                        paths := some ["/x"] }] }
      (by simp)
  exact ⟨r, hr, rule, hrule⟩

/-- C6, counterexample: an intent whose target_service is present but
empty.  The claim requires the target reference to be the present
target_service; the code uses Python truthiness, so the empty string
falls back to the target application name. -/
theorem build_policies_empty_target_service_counterexample :
    (build_authorization_policies (fun _ => "0123456789abcdef") "beacon" "mymodel"
        [{ source_app_name := "app-a", source_namespace := "ns1", target_app_name := "app-b",
           target_service := some "", endpoints := [] }]).map (fun r => r.targetRefs)
    = [[{ group := "", kind := "Service", name := "app-b" }]] := by
  decide

/-- C6, amended: build yields exactly one resource per intent, in order
and without merging; the target reference is target_service when it is
present and non-empty, and target_app_name otherwise; the single source
principal is cluster.local/ns/{selfModelNamespace}/sa/{source_app_name},
resolved in the beacon model namespace regardless of the intent source
namespace. -/
theorem build_policies_one_per_intent (hashFn : MeshPolicy → String)
    (appName modelName : String) (mesh_info : List MeshPolicy) :
    (build_authorization_policies hashFn appName modelName mesh_info).length = mesh_info.length
  ∧ ∀ (i : Nat) (policy : MeshPolicy), mesh_info[i]? = some policy →
      ∃ r : AuthorizationPolicyResource,
        (build_authorization_policies hashFn appName modelName mesh_info)[i]? = some r
        ∧ r.ns = modelName
        ∧ r.targetRefs = [{ group := "", kind := "Service",
                            name := targetServiceOrAppName policy }]
        ∧ (policy.target_service = none →
            r.targetRefs = [{ group := "", kind := "Service",
                              name := policy.target_app_name }])
        ∧ (∀ s : String, policy.target_service = some s → s ≠ "" →
            r.targetRefs = [{ group := "", kind := "Service", name := s }])
        ∧ ∃ rule : Rule, r.rules = [rule]
          ∧ rule.from_ = some [{ source := { principals := some ["cluster.local/ns/" ++ modelName ++ "/sa/" ++ policy.source_app_name] } }] := by
  constructor
  · simp [build_authorization_policies]
  · intro i policy hi
    refine ⟨build_one_authorization_policy hashFn appName modelName policy,
      by simp [build_authorization_policies, List.getElem?_map, hi], rfl, rfl, ?_, ?_, _, rfl, rfl⟩
    · intro hts
      simp [build_one_authorization_policy, targetServiceOrAppName, hts]
    · intro s hts hne
      have : (s == "") = false := by
        cases hbe : s == ""
        · rfl
        · exact absurd (eq_of_beq hbe) hne
      simp [build_one_authorization_policy, targetServiceOrAppName, hts, this]

/-- C6, witness: the example from the spec, with one intent from app-a
in ns1 to app-b on self identity beacon-mymodel. -/
theorem build_policies_one_per_intent_witness :
    ∃ r : AuthorizationPolicyResource,
      (build_authorization_policies (fun _ => "0123456789abcdef") "beacon" "mymodel"
        [{ source_app_name := "app-a", source_namespace := "ns1", target_app_name := "app-b",
           target_service := none, endpoints := [] }])[0]? = some r
      ∧ r.targetRefs = [{ group := "", kind := "Service", name := "app-b" }]
      ∧ ∃ rule : Rule, r.rules = [rule]
        ∧ rule.from_ = some [{ source := { principals := some ["cluster.local/ns/mymodel/sa/app-a"] } }] := by
  obtain ⟨r, hr, -, htr, hnone, -, rule, hrule, hfrom⟩ :=
    (build_policies_one_per_intent (fun _ => "0123456789abcdef") "beacon" "mymodel"
      [{ source_app_name := "app-a", source_namespace := "ns1", target_app_name := "app-b",
         target_service := none, endpoints := [] }]).2 0
      { source_app_name := "app-a", source_namespace := "ns1", target_app_name := "app-b",
        target_service := none, endpoints := [] } rfl
  exact ⟨r, hr, hnone rfl, rule, hrule, hfrom⟩

/-- C4: for juju-constrained application and model names (at most 63
characters each), the generated policy name is the dash-joined form when
it fits in 253 characters; when it does not fit, each of the source
application, source namespace and target application segments is
independently truncated to its first 30 characters, the result is at
most 253 characters, and its hash segment is the same
strTake (hashFn policy) 8 of the untruncated intent that the untruncated
computation uses. -/
theorem authorization_policy_name_truncation (hashFn : MeshPolicy → String)
    (appName modelName : String) (policy : MeshPolicy)
    (happ : appName.length ≤ 63) (hmodel : modelName.length ≤ 63) :
    (¬ (dashJoin [appName, modelName, "policy", policy.source_app_name,
          policy.source_namespace, policy.target_app_name,
          strTake (hashFn policy) 8]).length > 253 →
      generate_authorization_policy_name hashFn appName modelName policy
        = dashJoin [appName, modelName, "policy", policy.source_app_name,
            policy.source_namespace, policy.target_app_name, strTake (hashFn policy) 8])
  ∧ ((dashJoin [appName, modelName, "policy", policy.source_app_name,
          policy.source_namespace, policy.target_app_name,
          strTake (hashFn policy) 8]).length > 253 →
      generate_authorization_policy_name hashFn appName modelName policy
        = dashJoin [appName, modelName, "policy", strTake policy.source_app_name 30,
            strTake policy.source_namespace 30, strTake policy.target_app_name 30,
            strTake (hashFn policy) 8]
      ∧ (generate_authorization_policy_name hashFn appName modelName policy).length ≤ 253) := by
  constructor
  · intro h
    simp only [generate_authorization_policy_name]
    rw [if_neg h]
  · intro h
    have heq : generate_authorization_policy_name hashFn appName modelName policy
        = dashJoin [appName, modelName, "policy", strTake policy.source_app_name 30,
            strTake policy.source_namespace 30, strTake policy.target_app_name 30,
            strTake (hashFn policy) 8] := by
      simp only [generate_authorization_policy_name]
      rw [if_pos h]
    refine ⟨heq, ?_⟩
    rw [heq, dashJoin_seven_length]
    have h1 := strTake_length_le policy.source_app_name 30
    have h2 := strTake_length_le policy.source_namespace 30
    have h3 := strTake_length_le policy.target_app_name 30
    have h4 := strTake_length_le (hashFn policy) 8
    have hpol : ("policy" : String).length = 6 := rfl
    omega

set_option maxRecDepth 200000 in
/-- C4, witness: 80-character source application, source namespace and
target application names overflow the 253-character limit; the generated
name is the truncated reassembly and fits the limit. -/
theorem authorization_policy_name_truncation_witness :
    generate_authorization_policy_name (fun _ => "0123456789abcdef") "beacon" "mymodel"
      { source_app_name := "aaaaaaaaaaaaaaaaaaaaaaaaaaaaaaaaaaaaaaaaaaaaaaaaaaaaaaaaaaaaaaaaaaaaaaaaaaaaaaaa", source_namespace := "bbbbbbbbbbbbbbbbbbbbbbbbbbbbbbbbbbbbbbbbbbbbbbbbbbbbbbbbbbbbbbbbbbbbbbbbbbbbbbbb", target_app_name := "cccccccccccccccccccccccccccccccccccccccccccccccccccccccccccccccccccccccccccccccc",
        target_service := none, endpoints := [] }
      = dashJoin ["beacon", "mymodel", "policy", strTake "aaaaaaaaaaaaaaaaaaaaaaaaaaaaaaaaaaaaaaaaaaaaaaaaaaaaaaaaaaaaaaaaaaaaaaaaaaaaaaaa" 30, strTake "bbbbbbbbbbbbbbbbbbbbbbbbbbbbbbbbbbbbbbbbbbbbbbbbbbbbbbbbbbbbbbbbbbbbbbbbbbbbbbbb" 30,
          strTake "cccccccccccccccccccccccccccccccccccccccccccccccccccccccccccccccccccccccccccccccc" 30, strTake "0123456789abcdef" 8]
    ∧ (generate_authorization_policy_name (fun _ => "0123456789abcdef") "beacon" "mymodel"
        { source_app_name := "aaaaaaaaaaaaaaaaaaaaaaaaaaaaaaaaaaaaaaaaaaaaaaaaaaaaaaaaaaaaaaaaaaaaaaaaaaaaaaaa", source_namespace := "bbbbbbbbbbbbbbbbbbbbbbbbbbbbbbbbbbbbbbbbbbbbbbbbbbbbbbbbbbbbbbbbbbbbbbbbbbbbbbbb", target_app_name := "cccccccccccccccccccccccccccccccccccccccccccccccccccccccccccccccccccccccccccccccc",
          target_service := none, endpoints := [] }).length ≤ 253 :=
  (authorization_policy_name_truncation (fun _ => "0123456789abcdef") "beacon" "mymodel"
    { source_app_name := "aaaaaaaaaaaaaaaaaaaaaaaaaaaaaaaaaaaaaaaaaaaaaaaaaaaaaaaaaaaaaaaaaaaaaaaaaaaaaaaa", source_namespace := "bbbbbbbbbbbbbbbbbbbbbbbbbbbbbbbbbbbbbbbbbbbbbbbbbbbbbbbbbbbbbbbbbbbbbbbbbbbbbbbb", target_app_name := "cccccccccccccccccccccccccccccccccccccccccccccccccccccccccccccccccccccccccccccccc",
      target_service := none, endpoints := [] }
    (by decide) (by decide)).2 (by decide)

end IstioBeacon
